import Mathlib

/-!
Verification of the subscription state-reconciliation flow of the zensai
journaling application: a shallow embedding of the four Supabase edge
functions (revenuecat-webhook, verify-subscription, create-checkout-session,
create-stripe-customer) and proofs about their behaviour.

External collaborators (the WebCrypto HMAC primitive, Stripe lookups,
JSON parsing, date formatting) are passed in as function parameters; the
repository's own logic is embedded directly from the TypeScript source.
-/

namespace Zensai

/-- The persisted user profile row, restricted to the subscription-relevant
fields written by this subsystem. Statuses and tiers are stored as strings
in the database, so they are strings here. -/
structure Profile where
  subscription_status : String
  subscription_tier : String
  subscription_expires_at : Option String
  revenuecat_user_id : Option String
  updated_at : String
deriving DecidableEq, Repr

/-- The fields of an inbound RevenueCat webhook event payload that the
handler reads (`event.event` in the source). -/
structure RCEventData where
  type : String
  app_user_id : String
  product_id : String
  expires_date : Option String
deriving DecidableEq, Repr

/-- JS `String.prototype.includes`: substring containment. -/
def strContains (s pat : String) : Bool :=
  decide (List.IsInfix pat.toList s.toList)

/-- Tier derivation in the webhook purchase case:
`productId.includes('yearly') || productId.includes('annual')`. -/
def deriveTier (productId : String) : String :=
  if strContains productId "yearly" || strContains productId "annual" then
    "premium_plus"
  else
    "premium"

/-- The purchase-family event types of the switch in the webhook handler. -/
def isPurchaseEvent (t : String) : Bool :=
  t = "INITIAL_PURCHASE" || t = "RENEWAL" || t = "RESTORE" ||
    t = "NON_RENEWING_PURCHASE"

/-- The cancellation-family event types of the switch in the webhook handler. -/
def isCancelEvent (t : String) : Bool :=
  t = "CANCELLATION" || t = "EXPIRATION" || t = "BILLING_ISSUE"

/-- The expiry written by the webhook handler:
`event.event.expires_date ? new Date(event.event.expires_date) : null`
followed by `expiresDate?.toISOString() || null`. A missing field, or the
JS-falsy empty string, yields null; otherwise the date string is converted
by the external date formatter `isoOf`. -/
def expiryIso (isoOf : String → String) (ed : Option String) : Option String :=
  match ed with
  | none => none
  | some s => if s = "" then none else some (isoOf s)

/-- The profile update applied by the webhook handler's switch on
`event.event.type`: purchase events set status/tier/expiry and the
RevenueCat user id; cancellation-family events set status and expiry only;
any other type is a no-op. `now` is the `new Date().toISOString()` value
written to `updated_at`. -/
def applyWebhookEvent (isoOf : String → String) (now : String)
    (e : RCEventData) (p : Profile) : Profile :=
  if isPurchaseEvent e.type then
    { p with
      subscription_status := "premium"
      subscription_tier := deriveTier e.product_id
      subscription_expires_at := expiryIso isoOf e.expires_date
      revenuecat_user_id := some e.app_user_id
      updated_at := now }
  else if isCancelEvent e.type then
    { p with
      subscription_status := if e.type = "CANCELLATION" then "cancelled" else "expired"
      subscription_expires_at := expiryIso isoOf e.expires_date
      updated_at := now }
  else
    p

/-- JS `b.toString(16).padStart(2, '0')` for a byte value. -/
def hexByte (b : Nat) : String :=
  let s := (Nat.toDigits 16 b).asString
  if s.length < 2 then "0" ++ s else s

/-- The hex encoding of the HMAC output used in `verifySignature`:
`signatureArray.map(b => b.toString(16).padStart(2, '0')).join('')`. -/
def hexEncode (bs : List Nat) : String :=
  String.join (bs.map hexByte)

/-- The function verifySignature(payload, signature, secretKey) from the
webhook source. The WebCrypto HMAC-SHA256 primitive is passed in as `hmacSha256`
(key first, then message), returning the raw signature bytes or an error;
the surrounding try/catch turns any internal failure into `false`. The
computed signature is hex-encoded and compared to the provided one with
string equality. -/
def verifySignature (hmacSha256 : String → String → Except String (List Nat))
    (payload signature secretKey : String) : Bool :=
  match hmacSha256 secretKey payload with
  | Except.error _ => false
  | Except.ok bytes => hexEncode bytes == signature

/-- An inbound HTTP request to the webhook endpoint: the method, the
optional `X-Signature` header, and the raw unparsed body. -/
structure WebhookRequest where
  method : String
  xSignature : Option String
  rawBody : String
deriving DecidableEq, Repr

/-- The observable outcome of a handler: HTTP status code and the
`success` field of the JSON envelope. (The OPTIONS pre-flight response has
an empty body; it is modelled with `success := true`.) -/
structure HttpOutcome where
  status : Nat
  success : Bool
deriving DecidableEq, Repr

/-- The revenuecat-webhook request handler, from the method/signature gates
through the switch on the event type. JSON parsing of the body is the
external `parse`; a parse failure is the thrown `JSON.parse` exception,
caught by the outer handler as a 500. The profile update statement is
modelled as applied to the row (a persistence failure is an external fault
surfaced as 500). Environment variables are assumed configured, with the
webhook secret passed as `secret`. -/
def webhookHandler (hmacSha256 : String → String → Except String (List Nat))
    (parse : String → Option RCEventData) (isoOf : String → String)
    (secret now : String) (req : WebhookRequest) (p : Profile) :
    HttpOutcome × Profile :=
  if req.method = "OPTIONS" then (⟨200, true⟩, p)
  else if req.method ≠ "POST" then (⟨405, false⟩, p)
  else
    match req.xSignature with
    | none => (⟨400, false⟩, p)
    | some sig =>
      if verifySignature hmacSha256 req.rawBody sig secret then
        match parse req.rawBody with
        | none => (⟨500, false⟩, p)
        | some e => (⟨200, true⟩, applyWebhookEvent isoOf now e p)
      else (⟨400, false⟩, p)

/-- The fields of a Stripe checkout session read by verify-subscription. -/
structure StripeSession where
  payment_status : String
  status : String
  subscription : Option String
deriving DecidableEq, Repr

/-- The fields of a Stripe subscription read by verify-subscription:
the price ids of its items (the source reads `items.data[0].price.id`)
and `current_period_end`. -/
structure StripeSubscription where
  items : List String
  current_period_end : Nat
deriving DecidableEq, Repr

/-- The verify-subscription handler from the point where the checkout
session has been retrieved. If `payment_status !== 'paid' &&
status !== 'complete'`, it returns 200 with success false and touches
nothing. Otherwise it requires a subscription reference (else 400),
retrieves the subscription via the external `subOf`, derives the tier by
comparing the first item's price id to the configured monthly price id,
and writes status premium, the tier, and the period-end expiry to the
profile. An empty items list makes `items.data[0].price` throw, caught as
a 500. `epochIso` is `new Date(n * 1000).toISOString()`. -/
def verifySubscriptionApply (monthlyPriceId : Option String)
    (subOf : String → StripeSubscription) (epochIso : Nat → String)
    (now : String) (s : StripeSession) (p : Profile) :
    HttpOutcome × Profile :=
  if s.payment_status ≠ "paid" ∧ s.status ≠ "complete" then (⟨200, false⟩, p)
  else
    match s.subscription with
    | none => (⟨400, false⟩, p)
    | some subId =>
      match (subOf subId).items.head? with
      | none => (⟨500, false⟩, p)
      | some priceId =>
        let tier := if monthlyPriceId = some priceId then "premium" else "premium_plus"
        (⟨200, true⟩,
          { p with
            subscription_status := "premium"
            subscription_tier := tier
            subscription_expires_at := some (epochIso (subOf subId).current_period_end)
            updated_at := now })

/-- Result of the customer-resolution step of create-checkout-session:
the resolved Stripe customer id, how many provider customers were created,
and the resulting profile row. -/
structure ResolveResult where
  customerId : String
  created : Nat
  profile : Profile
deriving DecidableEq, Repr

/-- The customer-resolution step of create-checkout-session. The stored
`revenuecat_user_id` is read; if JS-truthy (present and non-empty), the
provider is asked whether the customer exists (`providerHas`, the
`stripe.customers.retrieve` probe, whose failure is caught and treated as
absent). If it exists it is reused with no creation; otherwise exactly one
customer is created (its id is the external `newId`) and persisted — a
persistence failure (`dbOk = false`) is logged and checkout proceeds with
the fresh id anyway. -/
def resolveCustomer (providerHas : String → Bool) (newId : String)
    (dbOk : Bool) (p : Profile) : ResolveResult :=
  match p.revenuecat_user_id with
  | some c =>
    if c ≠ "" && providerHas c then ⟨c, 0, p⟩
    else ⟨newId, 1, if dbOk then { p with revenuecat_user_id := some newId } else p⟩
  | none =>
    ⟨newId, 1, if dbOk then { p with revenuecat_user_id := some newId } else p⟩

/-- The create-stripe-customer (signup-triggered) handler's effect: if the
profile already has a JS-truthy customer id it returns early; otherwise one
provider customer is created and its id persisted (a persistence failure
throws, surfaced as 500, leaving the row unchanged). Returns the resolved
customer id and the resulting profile. -/
def createStripeCustomer (newId : String) (dbOk : Bool) (p : Profile) :
    String × Profile :=
  match p.revenuecat_user_id with
  | some c =>
    if c ≠ "" then (c, p)
    else (newId, if dbOk then { p with revenuecat_user_id := some newId } else p)
  | none =>
    (newId, if dbOk then { p with revenuecat_user_id := some newId } else p)

/-- The profile-mutating operations of the billing subsystem, for stating
cross-operation invariants. -/
inductive BillingOp where
  | webhookEvent (isoOf : String → String) (now : String) (e : RCEventData)
  | checkoutResolve (providerHas : String → Bool) (newId : String) (dbOk : Bool)
  | signupCreate (newId : String) (dbOk : Bool)

/-- Apply one billing-subsystem operation to a profile row. -/
def applyOp : BillingOp → Profile → Profile
  | BillingOp.webhookEvent isoOf now e, p => applyWebhookEvent isoOf now e p
  | BillingOp.checkoutResolve f newId dbOk, p => (resolveCustomer f newId dbOk p).profile
  | BillingOp.signupCreate newId dbOk, p => (createStripeCustomer newId dbOk p).2

/-- The cancellation-family types are disjoint from the purchase-family
types, so a cancellation event takes the second branch of the switch. -/
lemma cancel_not_purchase (t : String) (h : isCancelEvent t = true) :
    isPurchaseEvent t = false := by
  simp only [isCancelEvent, Bool.or_eq_true, decide_eq_true_eq] at h
  rcases h with (h | h) | h <;> subst h <;> decide

/-- C1: for a checkout session whose payment is not completed (the
payment-status and status checks of the source both fail), the
Subscription Verifier returns HTTP 200 with success false and leaves the
profile row untouched: no subscription_status, subscription_tier or
subscription_expires_at write occurs. -/
theorem verify_subscription_incomplete_no_mutation
    (monthlyPriceId : Option String) (subOf : String → StripeSubscription)
    (epochIso : Nat → String) (now : String) (s : StripeSession) (p : Profile)
    (hpay : s.payment_status ≠ "paid") (hstat : s.status ≠ "complete") :
    verifySubscriptionApply monthlyPriceId subOf epochIso now s p =
      (⟨200, false⟩, p) := by
  simp [verifySubscriptionApply, hpay, hstat]

/-- C1 witness: a concrete pending session is answered 200 / success
false with the profile unchanged. -/
theorem verify_subscription_incomplete_no_mutation_witness :
    verifySubscriptionApply (some "price_m") (fun _ => ⟨["price_m"], 100⟩)
      (fun _ => "2030-01-01") "t1" ⟨"unpaid", "open", some "sub_1"⟩
      ⟨"free", "free", none, none, "t0"⟩ =
      (⟨200, false⟩, ⟨"free", "free", none, none, "t0"⟩) :=
  verify_subscription_incomplete_no_mutation (some "price_m")
    (fun _ => ⟨["price_m"], 100⟩) (fun _ => "2030-01-01") "t1"
    ⟨"unpaid", "open", some "sub_1"⟩ ⟨"free", "free", none, none, "t0"⟩
    (by decide) (by decide)

/-- C9: for a completed session with a subscription, the written tier is
premium exactly when the first item's price id equals the configured
monthly price id; any other price id — the configured yearly id or any
unrecognized one — yields premium_plus. -/
theorem verify_subscription_tier_iff_monthly
    (monthlyPriceId : Option String) (subOf : String → StripeSubscription)
    (epochIso : Nat → String) (now : String) (s : StripeSession) (p : Profile)
    (subId priceId : String)
    (hdone : s.payment_status = "paid" ∨ s.status = "complete")
    (hsub : s.subscription = some subId)
    (hprice : (subOf subId).items.head? = some priceId) :
    let p2 := (verifySubscriptionApply monthlyPriceId subOf epochIso now s p).2
    (p2.subscription_tier = "premium" ↔ monthlyPriceId = some priceId) ∧
    (monthlyPriceId ≠ some priceId → p2.subscription_tier = "premium_plus") := by
  have hgate : ¬(s.payment_status ≠ "paid" ∧ s.status ≠ "complete") := by
    rcases hdone with h | h <;> simp [h]
  by_cases hm : monthlyPriceId = some priceId <;>
    simp [verifySubscriptionApply, hgate, hsub, hprice, hm]

/-- C9 witness: with the monthly price configured as pm and the
subscription's first item priced pm, the written tier is premium. -/
theorem verify_subscription_tier_iff_monthly_witness :
    ("paid" = "paid" ∨ "complete" = "complete") ∧
    (let p2 := (verifySubscriptionApply (some "pm") (fun _ => ⟨["pm"], 100⟩)
      (fun _ => "2030-01-01") "t1" ⟨"paid", "complete", some "sub_1"⟩
      ⟨"free", "free", none, none, "t0"⟩).2
    (p2.subscription_tier = "premium" ↔ some "pm" = some "pm") ∧
    (some "pm" ≠ some "pm" → p2.subscription_tier = "premium_plus")) :=
  ⟨Or.inl rfl,
   verify_subscription_tier_iff_monthly (some "pm") (fun _ => ⟨["pm"], 100⟩)
     (fun _ => "2030-01-01") "t1" ⟨"paid", "complete", some "sub_1"⟩
     ⟨"free", "free", none, none, "t0"⟩ "sub_1" "pm" (Or.inl rfl) rfl rfl⟩

/-- C5: verifySignature accepts exactly the hex encoding of the
HMAC-SHA256 of the raw body under the secret, rejects every other
signature string, and turns any internal failure of the crypto primitive
into false rather than an exception. -/
theorem verifySignature_correct
    (hmacSha256 : String → String → Except String (List Nat))
    (rawBody secretKey : String) :
    (∀ bytes, hmacSha256 secretKey rawBody = Except.ok bytes →
      verifySignature hmacSha256 rawBody (hexEncode bytes) secretKey = true ∧
      ∀ sig, sig ≠ hexEncode bytes →
        verifySignature hmacSha256 rawBody sig secretKey = false) ∧
    (∀ err, hmacSha256 secretKey rawBody = Except.error err →
      ∀ sig, verifySignature hmacSha256 rawBody sig secretKey = false) := by
  refine ⟨fun bytes hok => ⟨?_, fun sig hne => ?_⟩, fun err herr sig => ?_⟩
  · simp [verifySignature, hok]
  · simp only [verifySignature, hok, beq_eq_false_iff_ne, ne_eq]
    exact fun h => hne h.symm
  · simp [verifySignature, herr]

/-- C5 witness: with a crypto primitive returning bytes 0x00 0xab, the
matching hex signature is accepted, a different string is rejected, and a
failing primitive yields false. -/
theorem verifySignature_correct_witness :
    verifySignature (fun _ _ => Except.ok [0, 171]) "body" "00ab" "key" = true ∧
    verifySignature (fun _ _ => Except.ok [0, 171]) "body" "bad" "key" = false ∧
    verifySignature (fun _ _ => Except.error "boom") "body" "00ab" "key" = false :=
  ⟨((verifySignature_correct (fun _ _ => Except.ok [0, 171]) "body" "key").1
      [0, 171] rfl).1,
   ((verifySignature_correct (fun _ _ => Except.ok [0, 171]) "body" "key").1
      [0, 171] rfl).2 "bad" (by decide),
   (verifySignature_correct (fun _ _ => Except.error "boom") "body" "key").2
      "boom" rfl "00ab"⟩

/-- C2: for a POST webhook request whose X-Signature header is missing or
whose signature fails verification against the raw body, the handler
responds 400 and leaves the profile unchanged — for every JSON parser,
since the body is only parsed after the signature gate passes. -/
theorem webhook_bad_signature_rejected
    (hmacSha256 : String → String → Except String (List Nat))
    (parse : String → Option RCEventData) (isoOf : String → String)
    (secret now : String) (req : WebhookRequest) (p : Profile)
    (hpost : req.method = "POST")
    (hbad : req.xSignature = none ∨
      ∃ sig, req.xSignature = some sig ∧
        verifySignature hmacSha256 req.rawBody sig secret = false) :
    webhookHandler hmacSha256 parse isoOf secret now req p = (⟨400, false⟩, p) := by
  rcases hbad with h | ⟨sig, hsig, hv⟩
  · simp [webhookHandler, hpost, h]
  · simp [webhookHandler, hpost, hsig, hv]

/-- C2 witness: a POST request with no X-Signature header gets a 400 and
the profile is returned unchanged. -/
theorem webhook_bad_signature_rejected_witness :
    webhookHandler (fun _ _ => Except.ok []) (fun _ => none) (fun s => s)
      "sec" "t1" ⟨"POST", none, "body"⟩ ⟨"free", "free", none, none, "t0"⟩ =
      (⟨400, false⟩, ⟨"free", "free", none, none, "t0"⟩) :=
  webhook_bad_signature_rejected (fun _ _ => Except.ok []) (fun _ => none)
    (fun s => s) "sec" "t1" ⟨"POST", none, "body"⟩
    ⟨"free", "free", none, none, "t0"⟩ rfl (Or.inl rfl)

/-- C3: a verified purchase-family event (INITIAL_PURCHASE, RENEWAL,
RESTORE, NON_RENEWING_PURCHASE) sets status premium; tier premium_plus
when the product id contains yearly or annual and premium otherwise; the
expiry from the event's expires_date field; and the RevenueCat user id
field to the event's app_user_id. -/
theorem webhook_purchase_event_effect (isoOf : String → String) (now : String)
    (e : RCEventData) (p : Profile) (h : isPurchaseEvent e.type = true) :
    let p2 := applyWebhookEvent isoOf now e p
    p2.subscription_status = "premium" ∧
    p2.subscription_tier =
      (if strContains e.product_id "yearly" || strContains e.product_id "annual"
        then "premium_plus" else "premium") ∧
    p2.subscription_expires_at = expiryIso isoOf e.expires_date ∧
    p2.revenuecat_user_id = some e.app_user_id := by
  simp [applyWebhookEvent, h, deriveTier]

/-- C3 witness: an INITIAL_PURCHASE for yearly_premium applied to a free
profile sets the purchase fields. -/
theorem webhook_purchase_event_effect_witness :
    isPurchaseEvent "INITIAL_PURCHASE" = true ∧
    (let p2 := applyWebhookEvent (fun s => s) "t1"
      ⟨"INITIAL_PURCHASE", "user_1", "yearly_premium", some "2030-01-01"⟩
      ⟨"free", "free", none, none, "t0"⟩
    p2.subscription_status = "premium" ∧
    p2.subscription_tier =
      (if strContains "yearly_premium" "yearly" || strContains "yearly_premium" "annual"
        then "premium_plus" else "premium") ∧
    p2.subscription_expires_at = expiryIso (fun s => s) (some "2030-01-01") ∧
    p2.revenuecat_user_id = some "user_1") :=
  ⟨by decide,
   webhook_purchase_event_effect (fun s => s) "t1"
     ⟨"INITIAL_PURCHASE", "user_1", "yearly_premium", some "2030-01-01"⟩
     ⟨"free", "free", none, none, "t0"⟩ (by decide)⟩

/-- C4: a verified CANCELLATION event sets status cancelled and an
EXPIRATION or BILLING_ISSUE event sets status expired, each writing the
expiry from the event's expires_date field while leaving the tier and the
RevenueCat user id field unchanged. -/
theorem webhook_cancel_event_effect (isoOf : String → String) (now : String)
    (e : RCEventData) (p : Profile) (h : isCancelEvent e.type = true) :
    let p2 := applyWebhookEvent isoOf now e p
    p2.subscription_status =
      (if e.type = "CANCELLATION" then "cancelled" else "expired") ∧
    p2.subscription_expires_at = expiryIso isoOf e.expires_date ∧
    p2.subscription_tier = p.subscription_tier ∧
    p2.revenuecat_user_id = p.revenuecat_user_id := by
  have hp := cancel_not_purchase e.type h
  simp [applyWebhookEvent, hp, h]

/-- C4 witness: a CANCELLATION applied to a premium profile sets status
cancelled and the event expiry, keeping tier and customer id. -/
theorem webhook_cancel_event_effect_witness :
    isCancelEvent "CANCELLATION" = true ∧
    (let p2 := applyWebhookEvent (fun s => s) "t1"
      ⟨"CANCELLATION", "user_1", "yearly_premium", some "2030-01-01"⟩
      ⟨"premium", "premium_plus", some "2029-01-01", some "cus_1", "t0"⟩
    p2.subscription_status =
      (if "CANCELLATION" = "CANCELLATION" then "cancelled" else "expired") ∧
    p2.subscription_expires_at = expiryIso (fun s => s) (some "2030-01-01") ∧
    p2.subscription_tier = "premium_plus" ∧
    p2.revenuecat_user_id = some "cus_1") :=
  ⟨by decide,
   webhook_cancel_event_effect (fun s => s) "t1"
     ⟨"CANCELLATION", "user_1", "yearly_premium", some "2030-01-01"⟩
     ⟨"premium", "premium_plus", some "2029-01-01", some "cus_1", "t0"⟩
     (by decide)⟩

/-- C7: applying the same INITIAL_PURCHASE event twice (at possibly
different wall-clock times) leaves subscription_status, subscription_tier
and subscription_expires_at equal to what a single application gives, for
every payload and starting profile. -/
theorem webhook_purchase_idempotent (isoOf : String → String)
    (now1 now2 : String) (e : RCEventData) (p : Profile)
    (h : e.type = "INITIAL_PURCHASE") :
    let p1 := applyWebhookEvent isoOf now1 e p
    let p2 := applyWebhookEvent isoOf now2 e p1
    p2.subscription_status = p1.subscription_status ∧
    p2.subscription_tier = p1.subscription_tier ∧
    p2.subscription_expires_at = p1.subscription_expires_at := by
  have hp : isPurchaseEvent e.type = true := by simp [isPurchaseEvent, h]
  simp [applyWebhookEvent, hp]

/-- C7 witness: a concrete INITIAL_PURCHASE applied twice agrees with one
application on the three subscription fields. -/
theorem webhook_purchase_idempotent_witness :
    ("INITIAL_PURCHASE" : String) = "INITIAL_PURCHASE" ∧
    (let p1 := applyWebhookEvent (fun s => s) "t1"
      ⟨"INITIAL_PURCHASE", "user_1", "monthly_premium", some "2030-01-01"⟩
      ⟨"free", "free", none, none, "t0"⟩
    let p2 := applyWebhookEvent (fun s => s) "t2"
      ⟨"INITIAL_PURCHASE", "user_1", "monthly_premium", some "2030-01-01"⟩ p1
    p2.subscription_status = p1.subscription_status ∧
    p2.subscription_tier = p1.subscription_tier ∧
    p2.subscription_expires_at = p1.subscription_expires_at) :=
  ⟨rfl,
   webhook_purchase_idempotent (fun s => s) "t1" "t2"
     ⟨"INITIAL_PURCHASE", "user_1", "monthly_premium", some "2030-01-01"⟩
     ⟨"free", "free", none, none, "t0"⟩ rfl⟩

/-- C10: a handled event (purchase or cancellation family) whose
expires_date field is absent writes subscription_expires_at as null,
overwriting whatever expiry the profile held before. -/
theorem webhook_absent_expiry_writes_null (isoOf : String → String)
    (now : String) (e : RCEventData) (p : Profile)
    (habs : e.expires_date = none)
    (h : isPurchaseEvent e.type = true ∨ isCancelEvent e.type = true) :
    (applyWebhookEvent isoOf now e p).subscription_expires_at = none := by
  rcases h with h | h
  · simp [applyWebhookEvent, h, expiryIso, habs]
  · have hp := cancel_not_purchase e.type h
    simp [applyWebhookEvent, hp, h, expiryIso, habs]

/-- C10 witness: a RENEWAL without expires_date nulls out a previously
stored expiry. -/
theorem webhook_absent_expiry_writes_null_witness :
    (none : Option String) = none ∧
    (isPurchaseEvent "RENEWAL" = true ∨ isCancelEvent "RENEWAL" = true) ∧
    (applyWebhookEvent (fun s => s) "t1"
      ⟨"RENEWAL", "user_1", "monthly_premium", none⟩
      ⟨"premium", "premium", some "2024-06-01", some "cus_1", "t0"⟩
      ).subscription_expires_at = none :=
  ⟨rfl, Or.inl (by decide),
   webhook_absent_expiry_writes_null (fun s => s) "t1"
     ⟨"RENEWAL", "user_1", "monthly_premium", none⟩
     ⟨"premium", "premium", some "2024-06-01", some "cus_1", "t0"⟩
     rfl (Or.inl (by decide))⟩

/-- C6: across every operation of the subsystem — webhook processing,
checkout customer resolution, signup-triggered customer creation — a
profile whose RevenueCat customer id is non-null keeps a non-null id: the
field is reused or overwritten with a fresh id, never cleared. -/
theorem billing_customer_id_never_cleared (op : BillingOp) (p : Profile)
    (h : (p.revenuecat_user_id).isSome = true) :
    ((applyOp op p).revenuecat_user_id).isSome = true := by
  cases op with
  | webhookEvent isoOf now e =>
    simp only [applyOp, applyWebhookEvent]
    split
    · simp
    · split <;> simpa using h
  | checkoutResolve f newId dbOk =>
    simp only [applyOp, resolveCustomer]
    cases hid : p.revenuecat_user_id with
    | none => rw [hid] at h; simp at h
    | some c =>
      cases dbOk <;> split <;> (try split) <;> simp_all
  | signupCreate newId dbOk =>
    simp only [applyOp, createStripeCustomer]
    cases hid : p.revenuecat_user_id with
    | none => rw [hid] at h; simp at h
    | some c =>
      cases dbOk <;> split <;> (try split) <;> simp_all

/-- C6 witness: the signup-path create on a profile that already holds a
customer id leaves the id non-null. -/
theorem billing_customer_id_never_cleared_witness :
    ((Option.some "cus_1").isSome = true) ∧
    ((applyOp (BillingOp.signupCreate "cus_new" true)
      ⟨"free", "free", none, some "cus_1", "t0"⟩).revenuecat_user_id).isSome =
      true :=
  ⟨rfl,
   billing_customer_id_never_cleared (BillingOp.signupCreate "cus_new" true)
     ⟨"free", "free", none, some "cus_1", "t0"⟩ rfl⟩

/-- C8: checkout customer resolution reuses a stored, provider-confirmed
customer id without creating a provider customer; when the id is absent
(or empty, or the provider reports it missing) exactly one customer is
created, it becomes the resolved id, and — when the profile write
succeeds — it is persisted to the profile. -/
theorem resolveCustomer_correct (providerHas : String → Bool)
    (newId : String) (dbOk : Bool) (p : Profile) :
    (∀ c, p.revenuecat_user_id = some c → c ≠ "" → providerHas c = true →
      resolveCustomer providerHas newId dbOk p = ⟨c, 0, p⟩) ∧
    ((p.revenuecat_user_id = none ∨
        ∃ c, p.revenuecat_user_id = some c ∧ (c = "" ∨ providerHas c = false)) →
      (resolveCustomer providerHas newId dbOk p).customerId = newId ∧
      (resolveCustomer providerHas newId dbOk p).created = 1 ∧
      (dbOk = true →
        (resolveCustomer providerHas newId dbOk p).profile.revenuecat_user_id =
          some newId)) := by
  constructor
  · intro c hc hne hhas
    simp [resolveCustomer, hc, hne, hhas]
  · rintro (hnone | ⟨c, hc, hmiss⟩)
    · cases dbOk <;> simp [resolveCustomer, hnone]
    · rcases hmiss with hempty | hmiss
      · subst hempty
        cases dbOk <;> simp [resolveCustomer, hc]
      · cases dbOk <;> simp [resolveCustomer, hc, hmiss]

/-- C8 witness: a stored id the provider confirms is reused with no
creation; an absent id leads to one creation, resolved and persisted. -/
theorem resolveCustomer_correct_witness :
    resolveCustomer (fun c => c == "cus_1") "cus_new" true
      ⟨"free", "free", none, some "cus_1", "t0"⟩ =
      ⟨"cus_1", 0, ⟨"free", "free", none, some "cus_1", "t0"⟩⟩ ∧
    ((resolveCustomer (fun c => c == "cus_1") "cus_new" true
        ⟨"free", "free", none, none, "t0"⟩).customerId = "cus_new" ∧
      (resolveCustomer (fun c => c == "cus_1") "cus_new" true
        ⟨"free", "free", none, none, "t0"⟩).created = 1 ∧
      (resolveCustomer (fun c => c == "cus_1") "cus_new" true
        ⟨"free", "free", none, none, "t0"⟩).profile.revenuecat_user_id =
        some "cus_new") :=
  ⟨(resolveCustomer_correct (fun c => c == "cus_1") "cus_new" true
      ⟨"free", "free", none, some "cus_1", "t0"⟩).1 "cus_1" rfl (by decide)
      (by decide),
   by
    have h := (resolveCustomer_correct (fun c => c == "cus_1") "cus_new" true
      ⟨"free", "free", none, none, "t0"⟩).2 (Or.inl rfl)
    exact ⟨h.1, h.2.1, h.2.2 rfl⟩⟩

end Zensai
